import Mathlib

/-!
Shallow embedding of the AI-flow orchestration layer of the StudyBuddy
application (TypeScript sources under `src/`), together with theorems
checking the natural-language specification against the code.

Conventions of the embedding:
* Zod-validated request/response objects become Lean structures; a field
  declared `optional()` becomes an `Option`.
* A JavaScript string field whose "missing" sentinel is falsiness keeps
  type `String` when the schema makes it required (the empty string plays
  the role of the falsy value, exactly as in `q.id || ...`).
* The awaited generative-model call `await prompt(input)` is modelled by
  an explicit function parameter `model : Input → Option Output`; `none`
  models a missing (`null`/`undefined`) model output.
* A flow body that can `throw` returns `Except String _`; the thrown
  message is the `Except.error` payload.
* `Date.now()` (resp. the current date) is an explicit `now` parameter,
  since it varies between runs.
-/

namespace StudyBuddy

/-- Type of a test question: `z.enum(['subjective', 'objective'])`. -/
inductive QuestionType where
  | subjective
  | objective
deriving Repr, DecidableEq

/-- `TestQuestionOptionSchema` from `src/src/ai/flows/generate-test-flow.ts`:
an option of a multiple-choice question. -/
structure TestQuestionOption where
  id : String
  text : String
deriving Repr, DecidableEq

/-- `TestQuestionSchema` from `src/src/ai/flows/generate-test-flow.ts`
(same shape as `TestQuestionForAnalysisSchema` in the analysis flow and
`TestQuestion` in `src/src/types/index.ts`). -/
structure TestQuestion where
  id : String
  type : QuestionType
  questionText : String
  options : Option (List TestQuestionOption)
  correctAnswerKey : Option String
  correctAnswerText : Option String
deriving Repr, DecidableEq

/-- `GenerateTestInputSchema` from `src/src/ai/flows/generate-test-flow.ts`.
`numSubjective`/`numObjective` are `z.number().int().min(0)`, so they are
modelled as `Nat`. -/
structure GenerateTestInput where
  title : String
  subject : Option String
  description : Option String
  numSubjective : Nat
  numObjective : Nat
deriving Repr, DecidableEq

/-- `GenerateTestOutputSchema` from `src/src/ai/flows/generate-test-flow.ts`. -/
structure GenerateTestOutput where
  questions : List TestQuestion
deriving Repr, DecidableEq

/-- Post-processing of one generated question
(`generateTestInternalFlow`, the `output.questions.map` body in
`src/src/ai/flows/generate-test-flow.ts` lines 105-118).
`now` models `Date.now()`; a missing id is the empty string (the only
falsy value a schema-validated string field can take). -/
def postProcessQuestion (now : Nat) (index : Nat) (q : TestQuestion) : TestQuestion :=
  let questionId := if q.id = "" then "q_" ++ toString now ++ "_" ++ toString index else q.id
  let optionsWithIds := q.options.map (fun opts => opts.mapIdx (fun optIndex opt =>
    { opt with id := if opt.id = "" then questionId ++ "_opt" ++ toString optIndex else opt.id }))
  { q with
    id := questionId
    options := if q.type = .objective then some (optionsWithIds.getD []) else none
    correctAnswerKey := if q.type = .objective then q.correctAnswerKey else none }

/-- `generateTestInternalFlow` from `src/src/ai/flows/generate-test-flow.ts`.
The second component of the result counts how many calls were issued to
the model (0 or 1), so that "fails before any call to the model" is a
statement about the code.

The JS guard `!output || !output.questions` collapses to `!output` here:
a schema-validated output always carries a `questions` array, and an
empty array is truthy in JavaScript. -/
def generateTestInternalFlow (now : Nat)
    (model : GenerateTestInput → Option GenerateTestOutput)
    (input : GenerateTestInput) : Except String GenerateTestOutput × Nat :=
  if input.numObjective + input.numSubjective ≤ 0 then
    (.error "Total number of questions must be greater than 0.", 0)
  else if input.numObjective + input.numSubjective > 20 then
    (.error "Cannot generate more than 20 questions in total at once.", 0)
  else
    match model input with
    | none => (.error "AI failed to generate questions or output was empty.", 1)
    | some output =>
        (.ok { questions := output.questions.mapIdx (postProcessQuestion now) }, 1)

/-! ### Flows that return `output!` without a check

In `resolve-question.ts`, `summarize-conversation.ts`,
`generate-flashcard-answer-flow.ts`, `generate-multiple-flashcards-flow.ts`
and `generate-study-plan-flow.ts` the flow body ends in `return output!`.
The TypeScript non-null assertion `!` is erased at runtime, so a missing
model output is passed through unchanged; the body result is therefore
modelled as `Except String (Option _)`, and these bodies never produce
`Except.error`. -/

/-- `ResolveQuestionInputSchema` from `src/src/ai/flows/resolve-question.ts`. -/
structure ResolveQuestionInput where
  question : String
  image : Option String
deriving Repr, DecidableEq

/-- `ResolveQuestionOutputSchema` from `src/src/ai/flows/resolve-question.ts`. -/
structure ResolveQuestionOutput where
  answer : String
deriving Repr, DecidableEq

/-- `resolveQuestionFlow` from `src/src/ai/flows/resolve-question.ts`:
`const {output} = await prompt(input); return output!`. -/
def resolveQuestionFlow (model : ResolveQuestionInput → Option ResolveQuestionOutput)
    (input : ResolveQuestionInput) : Except String (Option ResolveQuestionOutput) :=
  .ok (model input)

/-- `SummarizeConversationInputSchema` from `src/src/ai/flows/summarize-conversation.ts`. -/
structure SummarizeConversationInput where
  conversationHistory : String
deriving Repr, DecidableEq

/-- `SummarizeConversationOutputSchema` from `src/src/ai/flows/summarize-conversation.ts`. -/
structure SummarizeConversationOutput where
  summary : String
deriving Repr, DecidableEq

/-- `summarizeConversationFlow` from `src/src/ai/flows/summarize-conversation.ts`. -/
def summarizeConversationFlow
    (model : SummarizeConversationInput → Option SummarizeConversationOutput)
    (input : SummarizeConversationInput) : Except String (Option SummarizeConversationOutput) :=
  .ok (model input)

/-- `GenerateFlashcardAnswerInputSchema` from
`src/src/ai/flows/generate-flashcard-answer-flow.ts`. -/
structure GenerateFlashcardAnswerInput where
  questionText : String
deriving Repr, DecidableEq

/-- `GenerateFlashcardAnswerOutputSchema` from
`src/src/ai/flows/generate-flashcard-answer-flow.ts`. -/
structure GenerateFlashcardAnswerOutput where
  answerText : String
deriving Repr, DecidableEq

/-- `generateFlashcardAnswerFlow` from
`src/src/ai/flows/generate-flashcard-answer-flow.ts`. -/
def generateFlashcardAnswerFlow
    (model : GenerateFlashcardAnswerInput → Option GenerateFlashcardAnswerOutput)
    (input : GenerateFlashcardAnswerInput) :
    Except String (Option GenerateFlashcardAnswerOutput) :=
  .ok (model input)

/-! ### Multiple-flashcard generation -/

/-- `FlashcardPairSchema` from `src/src/ai/flows/generate-multiple-flashcards-flow.ts`. -/
structure FlashcardPair where
  questionText : String
  answerText : String
deriving Repr, DecidableEq

/-- `GenerateMultipleFlashcardsInputSchema` from
`src/src/ai/flows/generate-multiple-flashcards-flow.ts`.
`numberOfCards` is `z.number().optional()`; the wrapper is called directly
with a caller-built object, so the field may be absent, and it is modelled
as `Option Int` (negative caller values included). -/
structure GenerateMultipleFlashcardsInput where
  topic : String
  numberOfCards : Option Int
deriving Repr, DecidableEq

/-- `GenerateMultipleFlashcardsOutputSchema` from
`src/src/ai/flows/generate-multiple-flashcards-flow.ts`. -/
structure GenerateMultipleFlashcardsOutput where
  flashcards : List FlashcardPair
deriving Repr, DecidableEq

/-- `generateMultipleFlashcardsFlow` from
`src/src/ai/flows/generate-multiple-flashcards-flow.ts`:
`const {output} = await prompt(input); return output!`. -/
def generateMultipleFlashcardsFlow
    (model : GenerateMultipleFlashcardsInput → Option GenerateMultipleFlashcardsOutput)
    (input : GenerateMultipleFlashcardsInput) :
    Except String (Option GenerateMultipleFlashcardsOutput) :=
  .ok (model input)

/-- `Math.max(input.numberOfCards || 5, 5)` from the `generateMultipleFlashcards`
wrapper (`generate-multiple-flashcards-flow.ts` line 36). `0` is falsy in
JavaScript, hence the explicit zero case. -/
def effectiveNumCards (input : GenerateMultipleFlashcardsInput) : Int :=
  max (match input.numberOfCards with
       | some v => if v = 0 then 5 else v
       | none => 5) 5

/-- The input actually handed to `generateMultipleFlashcardsFlow` by the
`generateMultipleFlashcards` wrapper: `{...input, numberOfCards: effectiveNumCards}`. -/
def flashcardsRequestInput (input : GenerateMultipleFlashcardsInput) :
    GenerateMultipleFlashcardsInput :=
  { input with numberOfCards := some (effectiveNumCards input) }

/-- `generateMultipleFlashcards` wrapper
(`generate-multiple-flashcards-flow.ts` lines 34-38). -/
def generateMultipleFlashcards
    (model : GenerateMultipleFlashcardsInput → Option GenerateMultipleFlashcardsOutput)
    (input : GenerateMultipleFlashcardsInput) :
    Except String (Option GenerateMultipleFlashcardsOutput) :=
  generateMultipleFlashcardsFlow model (flashcardsRequestInput input)

/-! ### Study-plan generation -/

/-- `ExamSchema` from `src/src/lib/planner-schemas.ts`. -/
structure Exam where
  id : String
  subject : String
  date : String
  type : Option String
deriving Repr, DecidableEq

/-- `GenerateStudyPlanInputSchema` from `src/src/lib/planner-schemas.ts`.
`learningPace` is one of `relaxed`/`moderate`/`intensive`. -/
inductive LearningPace where
  | relaxed
  | moderate
  | intensive
deriving Repr, DecidableEq

/-- `GenerateStudyPlanInputSchema` from `src/src/lib/planner-schemas.ts`. -/
structure GenerateStudyPlanInput where
  exams : List Exam
  weakAreas : Option (List String)
  learningPace : LearningPace
  studyHoursPerWeek : Option ℚ
  preferredStudyDays : Option (List String)
  notes : Option String
deriving Repr, DecidableEq

/-- `StudySessionSchema` from `src/src/ai/flows/generate-study-plan-flow.ts`. -/
structure StudySession where
  date : String
  startTime : String
  endTime : String
  subject : String
  activity : String
  isBreak : Bool
deriving Repr, DecidableEq

/-- One entry of `dailySessions` in `GenerateStudyPlanOutputSchema`
(`generate-study-plan-flow.ts` lines 32-37). -/
structure DailyPlan where
  date : String
  sessions : List StudySession
deriving Repr, DecidableEq

/-- `GenerateStudyPlanOutputSchema` from `src/src/ai/flows/generate-study-plan-flow.ts`. -/
structure GenerateStudyPlanOutput where
  planTitle : Option String
  dailySessions : List DailyPlan
  summaryNotes : Option String
deriving Repr, DecidableEq

/-- JavaScript `Number(str)` restricted to the unsigned-integer strings this
code feeds it (clock digits, date digits): `none` models `NaN`; the empty
string yields `0`, exactly as `Number("")` does. -/
def jsNumberNat? (cs : List Char) : Option Nat :=
  if cs.all (fun c => c.isDigit) then
    some (cs.foldl (fun acc c => acc * 10 + (c.toNat - 48)) 0)
  else none

/-- The `convertTime` closure inside `generateStudyPlanFlow`
(`generate-study-plan-flow.ts` lines 140-146):

    const [time, modifier] = timeStr.split(' ');
    let [hours, minutes] = time.split(':').map(Number);
    if (modifier === 'PM' && hours < 12) hours += 12;
    if (modifier === 'AM' && hours === 12) hours = 0;
    return hours * 60 + minutes;

`none` models a `NaN` result (unparseable string). JS array destructuring
keeps the leading fragments and drops the rest, hence the `::`-patterns;
a missing `minutes` fragment is `Number(undefined) = NaN`. -/
def convertTime (timeStr : String) : Option Nat :=
  match timeStr.toList.splitOnP (fun c => c = ' ') with
  | time :: rest =>
    let modifier := rest.head?
    match time.splitOnP (fun c => c = ':') with
    | h :: m :: _ => do
      let hoursRaw ← jsNumberNat? h
      let minutes ← jsNumberNat? m
      let hours := if modifier = some ['P', 'M'] ∧ hoursRaw < 12
                   then hoursRaw + 12 else hoursRaw
      let hours := if modifier = some ['A', 'M'] ∧ hours = 12 then 0 else hours
      pure (hours * 60 + minutes)
    | _ => none
  | [] => none

/-- Numeric key of a `YYYY-MM-DD` date string, modelling
`new Date(dateStr).getTime()` (`generate-study-plan-flow.ts` line 135).
For valid calendar dates this key is strictly monotone in the epoch
milliseconds JS computes, and the sort comparator only uses the sign of
the difference of the two keys, so the induced order is identical.
`none` models `NaN` (invalid date). -/
def dateKey (s : String) : Option Nat :=
  match s.toList.splitOnP (fun c => c = '-') with
  | [y, m, d] => do
    let yn ← jsNumberNat? y
    let mn ← jsNumberNat? m
    let dn ← jsNumberNat? d
    pure (yn * 10000 + mn * 100 + dn)
  | _ => none

/-- Boolean comparator on days derived from the JS comparator
`new Date(a.date).getTime() - new Date(b.date).getTime()` (sign only). -/
def dayLE (a b : DailyPlan) : Bool :=
  (dateKey a.date).getD 0 ≤ (dateKey b.date).getD 0

/-- Boolean comparator on sessions derived from the JS comparator
`convertTime(s1.startTime) - convertTime(s2.startTime)` (sign only). -/
def sessionLE (s1 s2 : StudySession) : Bool :=
  (convertTime s1.startTime).getD 0 ≤ (convertTime s2.startTime).getD 0

/-- The in-place sorting applied by `generateStudyPlanFlow` after the model
responds (`generate-study-plan-flow.ts` lines 134-151): sort `dailySessions`
by date, then each day's `sessions` by parsed start time. `List.mergeSort`
is a stable sort, as `Array.prototype.sort` is required to be. -/
def sortStudyPlan (output : GenerateStudyPlanOutput) : GenerateStudyPlanOutput :=
  { output with dailySessions :=
      (output.dailySessions.mergeSort dayLE).map (fun day =>
        { day with sessions := day.sessions.mergeSort sessionLE }) }

/-- `generateStudyPlanFlow` from `src/src/ai/flows/generate-study-plan-flow.ts`:
prepares the prompt context, calls the model, sorts the result when an
output object exists (`if (output?.dailySessions)`; `dailySessions` is a
required field, so the guard is exactly "output exists"), then
`return output!`. `currentDate` models `new Date().toISOString().split('T')[0]`. -/
def generateStudyPlanFlow (currentDate : String)
    (model : GenerateStudyPlanInput → String → Option String → Option GenerateStudyPlanOutput)
    (input : GenerateStudyPlanInput) : Except String (Option GenerateStudyPlanOutput) :=
  let preferredStudyDaysString : Option String :=
    match input.preferredStudyDays with
    | some days => if days.length > 0 then some (String.intercalate ", " days) else none
    | none => none
  let output := model input currentDate preferredStudyDaysString
  .ok (output.map sortStudyPlan)

/-! ### Test-result analysis -/

/-- `AnalyzeTestResultsInputSchema` from the analysis flow
(`analyze-test-results-flow.ts`). `userResponses` is
`z.record(z.string())`, modelled as an association list with the usual
first-match lookup (JS object keys are unique). The questions have the
same shape as `TestQuestion`. -/
structure AnalyzeTestResultsInput where
  testTitle : String
  testSubject : Option String
  testDescription : Option String
  questions : List TestQuestion
  userResponses : List (String × String)
deriving Repr, DecidableEq

/-- `ProcessedQuestionForPromptSchema` from the analysis flow: the question
extended with the resolved answer text and a 1-based display number. -/
structure ProcessedQuestion extends TestQuestion where
  userAnswerTextForPrompt : String
  questionDisplayNumber : Nat
deriving Repr, DecidableEq

/-- The answer-resolution step of `analyzeTestResultsInternalFlow`
(`analyze-test-results-flow.ts` lines 128-140):

    let userAnswerTextForPrompt = "N/A";
    const rawUserAnswer = input.userResponses[q.id];
    if (rawUserAnswer) {
      if (q.type === 'objective' && q.options) {
        const selectedOption = q.options.find(opt => opt.id === rawUserAnswer);
        userAnswerTextForPrompt = selectedOption ? selectedOption.text
                                                 : "Invalid option selected by user";
      } else {
        userAnswerTextForPrompt = rawUserAnswer;
      }
    } else {
      userAnswerTextForPrompt = "No answer provided";
    }

`if (rawUserAnswer)` is falsy for a missing key and for the empty string;
`q.options` is falsy only when absent (an empty array is truthy). -/
def resolveUserAnswer (userResponses : List (String × String)) (q : TestQuestion) : String :=
  match userResponses.lookup q.id with
  | some rawUserAnswer =>
    if rawUserAnswer = "" then "No answer provided"
    else
      match q.type, q.options with
      | .objective, some opts =>
        match opts.find? (fun opt => opt.id = rawUserAnswer) with
        | some selectedOption => selectedOption.text
        | none => "Invalid option selected by user"
      | _, _ => rawUserAnswer
  | none => "No answer provided"

/-- The pre-processing map of `analyzeTestResultsInternalFlow`
(`analyze-test-results-flow.ts` lines 127-147): resolve each answer and
attach `questionDisplayNumber = index + 1`. -/
def processQuestions (input : AnalyzeTestResultsInput) : List ProcessedQuestion :=
  input.questions.mapIdx (fun index q =>
    { toTestQuestion := q
      userAnswerTextForPrompt := resolveUserAnswer input.userResponses q
      questionDisplayNumber := index + 1 })

/-- `QuestionAnalysisSchema` from the analysis flow (same shape as
`QuestionAnalysis` in `src/src/types/index.ts`). Scores are rationals,
modelling JS numbers on the exact arithmetic this code performs. -/
structure QuestionAnalysis where
  questionId : String
  questionText : String
  userAnswerText : String
  correctAnswerText : Option String
  isCorrect : Bool
  feedback : String
  suggestedScoreOutOfTen : Option ℚ
deriving Repr, DecidableEq

/-- `AnalyzeTestResultsOutputSchema` / `TestAnalysisReport` from
`src/src/types/index.ts`. -/
structure TestAnalysisReport where
  overallScore : Option ℚ
  overallFeedback : String
  questionAnalyses : List QuestionAnalysis
deriving Repr, DecidableEq

/-- `analyzeTestResultsInternalFlow` from the analysis flow: pre-process
the questions, call the model on the processed data, and throw
`'AI analysis failed to return an output.'` when the output is missing. -/
def analyzeTestResultsInternalFlow
    (model : List ProcessedQuestion → Option TestAnalysisReport)
    (input : AnalyzeTestResultsInput) : Except String TestAnalysisReport :=
  let processedQuestions := processQuestions input
  match model processedQuestions with
  | none => .error "AI analysis failed to return an output."
  | some output => .ok output

/-! ### The basic-report fallback (`src/src/app/tests/[testId]/page.tsx`) -/

/-- JavaScript `String.prototype.trim`. -/
def jsTrim (cs : List Char) : List Char :=
  ((cs.dropWhile Char.isWhitespace).reverse.dropWhile Char.isWhitespace).reverse

/-- The fields of `TestSet` (`src/src/types/index.ts`) that
`generateBasicReport` reads: `questions` and the optional
`userResponses` record. -/
structure TestSet where
  questions : List TestQuestion
  userResponses : Option (List (String × String))
deriving Repr, DecidableEq

/-- `submittedTest.userResponses?.[q.id]`: optional-chaining record access. -/
def testSetResponse (submittedTest : TestSet) (questionId : String) : Option String :=
  (submittedTest.userResponses.getD []).lookup questionId

/-- The `isCorrect` computation of `generateBasicReport` for an objective
question (`page.tsx` line 52): `userAnswerValue && userAnswerValue === q.correctAnswerKey`. -/
def basicIsCorrect (userAnswerValue : Option String) (q : TestQuestion) : Bool :=
  match userAnswerValue, q.correctAnswerKey with
  | some v, some k => v ≠ "" && v = k
  | _, _ => false

/-- The per-question body of `generateBasicReport`
(`page.tsx` lines 38-68), without the score accumulators. -/
def basicQuestionAnalysis (userAnswerValue : Option String) (q : TestQuestion) :
    QuestionAnalysis :=
  let userAnswerText :=
    match userAnswerValue with
    | some r => if r = "" then "Not Attempted" else r
    | none => "Not Attempted"
  let userAnswerText :=
    match q.type with
    | .objective =>
      let selectedOption : Option TestQuestionOption :=
        match userAnswerValue, q.options with
        | some v, some opts => opts.find? (fun opt => opt.id = v)
        | _, _ => none
      match selectedOption with
      | some opt => opt.text
      | none =>
        match userAnswerValue with
        | some v => if v = "" then userAnswerText else "Invalid option selected"
        | none => userAnswerText
    | .subjective =>
      match userAnswerValue with
      | some r => if jsTrim r.toList = [] then "Not Attempted" else userAnswerText
      | none => "Not Attempted"
  let fallbackText :=
    if q.type = .objective then "Correct answer not specified" else "Model answer not specified"
  { questionId := q.id
    questionText := q.questionText
    userAnswerText := userAnswerText
    correctAnswerText := some (match q.correctAnswerText with
      | some t => if t = "" then fallbackText else t
      | none => fallbackText)
    isCorrect := q.type = .objective && basicIsCorrect userAnswerValue q
    feedback := "AI-powered feedback is temporarily unavailable for this question."
    suggestedScoreOutOfTen := none }

/-- `generateBasicReport` from `src/src/app/tests/[testId]/page.tsx`
(lines 34-80). The two counters of the source loop are expressed with
`countP` over the same question list the loop traverses. -/
def generateBasicReport (submittedTest : TestSet) : TestAnalysisReport :=
  let totalObjectiveQuestions :=
    submittedTest.questions.countP (fun q => q.type = .objective)
  let correctObjectiveAnswers :=
    submittedTest.questions.countP (fun q =>
      q.type = .objective && basicIsCorrect (testSetResponse submittedTest q.id) q)
  let overallScore : Option ℚ :=
    if totalObjectiveQuestions > 0 then
      some ((correctObjectiveAnswers : ℚ) / (totalObjectiveQuestions : ℚ) * 100)
    else none
  { overallScore := overallScore
    overallFeedback := "Basic report generated. AI analysis is temporarily unavailable. This report primarily reflects performance on objective questions."
    questionAnalyses := submittedTest.questions.map (fun q =>
      basicQuestionAnalysis (testSetResponse submittedTest q.id) q) }

/-- Substring test on character lists, modelling `String.prototype.includes`. -/
def containsChars (hay needle : List Char) : Bool :=
  hay.tails.any (fun t => needle.isPrefixOf t)

/-- JavaScript `String.prototype.toLowerCase` (character-wise). -/
def lowerChars (s : String) : List Char :=
  s.toList.map Char.toLower

/-- The 503-equivalent detection in `handleSubmitTest`
(`page.tsx` line 193): `includes("503") || toLowerCase().includes("overloaded")
|| toLowerCase().includes("service unavailable")`. -/
def errorIs503Equivalent (aiErrorMessage : String) : Bool :=
  containsChars aiErrorMessage.toList "503".toList ||
  containsChars (lowerChars aiErrorMessage) "overloaded".toList ||
  containsChars (lowerChars aiErrorMessage) "service unavailable".toList

/-- The catch branch of `handleSubmitTest` around `analyzeTestResults`
(`page.tsx` lines 188-200): on a 503-equivalent failure substitute
`generateBasicReport(submittedTest)`, otherwise rethrow. -/
def handleAnalysisOutcome (submittedTest : TestSet)
    (analysis : Except String TestAnalysisReport) : Except String TestAnalysisReport :=
  match analysis with
  | .ok analysisResult => .ok analysisResult
  | .error aiErrorMessage =>
    if errorIs503Equivalent aiErrorMessage then .ok (generateBasicReport submittedTest)
    else .error aiErrorMessage

/-! ### Concrete fixtures used by witnesses and counterexamples -/

/-- A generation request for one objective question. -/
def oneObjectiveInput : GenerateTestInput :=
  { title := "Geography", subject := some "Capitals", description := none,
    numSubjective := 0, numObjective := 1 }

/-- A model output whose single question lacks an id (the empty string is
the falsy value of a schema-validated string field). -/
def missingIdOutput : GenerateTestOutput :=
  { questions := [
    { id := "", type := QuestionType.objective, questionText := "Capital of France?",
      options := some [{ id := "a", text := "Paris" }, { id := "b", text := "Rome" }],
      correctAnswerKey := some "a", correctAnswerText := some "Paris" }] }

/-- A model output whose objective question carries a `correctAnswerKey`
matching no option id. -/
def danglingKeyOutput : GenerateTestOutput :=
  { questions := [
    { id := "q1", type := QuestionType.objective, questionText := "2+2?",
      options := some [{ id := "optA", text := "4" }],
      correctAnswerKey := some "zzz", correctAnswerText := some "4" }] }

/-- A subjective question with its id present. -/
def subjectiveQ : TestQuestion :=
  { id := "q1", type := QuestionType.subjective, questionText := "Explain gravity.",
    options := none, correctAnswerKey := none, correctAnswerText := some "..." }

/-- A model output with one subjective question, ids present. -/
def subjectiveOutput : GenerateTestOutput :=
  { questions := [subjectiveQ] }

/-- A submitted test with a single objective question and no recorded
responses. -/
def unansweredTest : TestSet :=
  { questions := [
      { id := "q1", type := QuestionType.objective, questionText := "2+2?",
        options := some [{ id := "a", text := "4" }, { id := "b", text := "5" }],
        correctAnswerKey := some "a", correctAnswerText := some "4" }],
    userResponses := none }

/-- A submitted test whose stored responses exactly match every
`correctAnswerKey`. -/
def perfectTest : TestSet :=
  { questions := [
      { id := "q1", type := QuestionType.objective, questionText := "2+2?",
        options := some [{ id := "a", text := "4" }, { id := "b", text := "5" }],
        correctAnswerKey := some "a", correctAnswerText := some "4" },
      { id := "q2", type := QuestionType.objective, questionText := "3+3?",
        options := some [{ id := "a", text := "5" }, { id := "b", text := "6" }],
        correctAnswerKey := some "b", correctAnswerText := some "6" }],
    userResponses := some [("q1", "a"), ("q2", "b")] }

/-- A submitted test with one correctly answered objective question and one
subjective question, used against the 503 fallback. -/
def overloadedTest : TestSet :=
  { questions := [
      { id := "q1", type := QuestionType.objective, questionText := "2+2?",
        options := some [{ id := "a", text := "4" }, { id := "b", text := "5" }],
        correctAnswerKey := some "a", correctAnswerText := some "4" },
      { id := "q2", type := QuestionType.subjective, questionText := "Explain.",
        options := none, correctAnswerKey := none, correctAnswerText := some "..." }],
    userResponses := some [("q1", "a"), ("q2", "because")] }

/-- An analysis request covering the resolution cases: an answered objective
question with an invalid stored option id, an answered objective question
with a valid one, an unanswered question, and an answered subjective
question. -/
def analysisFixture : AnalyzeTestResultsInput :=
  { testTitle := "Capitals", testSubject := some "Geography", testDescription := none,
    questions := [
      { id := "q1", type := QuestionType.objective, questionText := "Capital of France?",
        options := some [{ id := "a", text := "Paris" }, { id := "b", text := "Rome" }],
        correctAnswerKey := some "a", correctAnswerText := some "Paris" },
      { id := "q2", type := QuestionType.objective, questionText := "Capital of Italy?",
        options := some [{ id := "a", text := "Paris" }, { id := "b", text := "Rome" }],
        correctAnswerKey := some "b", correctAnswerText := some "Rome" },
      { id := "q3", type := QuestionType.subjective, questionText := "Why capitals?",
        options := none, correctAnswerKey := none, correctAnswerText := some "..." },
      { id := "q4", type := QuestionType.subjective, questionText := "Describe Berlin.",
        options := none, correctAnswerKey := none, correctAnswerText := some "..." }],
    userResponses := [("q1", "c"), ("q2", "b"), ("q4", "A big city.")] }

/-- An analysis request whose objective questions have no `options` array:
one stored response is a raw non-empty string, one is the empty string,
one is missing. -/
def noOptionsFixture : AnalyzeTestResultsInput :=
  { testTitle := "T", testSubject := none, testDescription := none,
    questions := [
      { id := "q1", type := QuestionType.objective, questionText := "A?",
        options := none, correctAnswerKey := some "a", correctAnswerText := none },
      { id := "q2", type := QuestionType.objective, questionText := "B?",
        options := none, correctAnswerKey := some "b", correctAnswerText := none },
      { id := "q3", type := QuestionType.objective, questionText := "C?",
        options := none, correctAnswerKey := some "c", correctAnswerText := none }],
    userResponses := [("q1", "a"), ("q2", "")] }

/-- An analysis request with one objective question that has options and a
recorded empty-string response (which matches no option id). -/
def emptyResponseFixture : AnalyzeTestResultsInput :=
  { testTitle := "Capitals", testSubject := none, testDescription := none,
    questions := [
      { id := "q1", type := QuestionType.objective, questionText := "Capital of France?",
        options := some [{ id := "a", text := "Paris" }, { id := "b", text := "Rome" }],
        correctAnswerKey := some "a", correctAnswerText := some "Paris" }],
    userResponses := [("q1", "")] }

/-- A string with a non-empty left part stays non-empty under append. -/
theorem append_ne_empty_of_left (s t : String) (hs : s ≠ "") : s ++ t ≠ "" := by
  intro he
  apply hs
  have hd := congrArg String.data he
  rw [String.data_append] at hd
  have h1 : s.data = [] := (List.append_eq_nil.mp hd).1
  exact String.ext h1

/-- `find?` returns the sole element `filter` keeps. -/
theorem find?_eq_of_filter_eq_singleton {α : Type} {p : α → Bool} :
    ∀ {l : List α} {a : α}, l.filter p = [a] → l.find? p = some a := by
  intro l
  induction l with
  | nil => intro a h; simp at h
  | cons x xs ih =>
    intro a h
    by_cases hx : p x
    · rw [List.filter_cons_of_pos hx] at h
      injection h with h1 h2
      rw [List.find?_cons_of_pos _ hx, h1]
    · rw [List.filter_cons_of_neg (by simpa using hx)] at h
      rw [List.find?_cons_of_neg _ (by simpa using hx)]
      exact ih h

/-! ### C1 -/

/-- **C1.** For every `TestGenerationRequest` whose `numSubjective` and
`numObjective` sum to 0, and for every one whose sum exceeds 20,
`generateTest` fails with an input-validation error before any call to the
model is issued: the result is `Except.error` and the model-call counter
is 0, for every possible model. -/
theorem generateTest_rejects_invalid_counts (now : Nat)
    (model : GenerateTestInput → Option GenerateTestOutput) (input : GenerateTestInput)
    (h : input.numSubjective + input.numObjective = 0 ∨
         20 < input.numSubjective + input.numObjective) :
    (∃ msg, (generateTestInternalFlow now model input).1 = Except.error msg) ∧
    (generateTestInternalFlow now model input).2 = 0 := by
  unfold generateTestInternalFlow
  rcases h with h | h
  · have h0 : input.numObjective + input.numSubjective ≤ 0 := by omega
    simp [h0]
  · have h0 : ¬ input.numObjective + input.numSubjective ≤ 0 := by omega
    have h1 : input.numObjective + input.numSubjective > 20 := by omega
    simp [h0, h1]

/-- Witness for C1 at the zero-question request. -/
theorem generateTest_rejects_invalid_counts_witness :
    (∃ msg, (generateTestInternalFlow 0 (fun _ => none)
      { title := "Algebra", subject := none, description := none,
        numSubjective := 0, numObjective := 0 }).1 = Except.error msg) ∧
    (generateTestInternalFlow 0 (fun _ => none)
      { title := "Algebra", subject := none, description := none,
        numSubjective := 0, numObjective := 0 }).2 = 0 :=
  generateTest_rejects_invalid_counts 0 (fun _ => none) _ (Or.inl rfl)

/-! ### C2 -/

/-- **C2** fails as stated: with a model stub yielding no output, the
multiple-flashcards flow body raises no error — it succeeds and passes
the missing (`undefined`) output through (`return output!`). -/
theorem flashcardsFlow_passes_missing_output_through :
    generateMultipleFlashcardsFlow (fun _ => none)
      { topic := "cells", numberOfCards := some 5 } = Except.ok none ∧
    ∀ msg, generateMultipleFlashcardsFlow (fun _ => none)
      { topic := "cells", numberOfCards := some 5 } ≠ Except.error msg :=
  ⟨rfl, fun _ h => Except.noConfusion h⟩

/-- **C2 (amended).** On a missing or empty model output, only
`generateTest` and `analyzeTestResults` fail with an explicit error. The
other five flow bodies (`resolveQuestion`, `summarizeConversation`,
`generateStudyPlan`, `generateFlashcardAnswer`,
`generateMultipleFlashcards`) perform no emptiness check: the runtime-erased
non-null assertion `output!` passes the missing output through, so the flow
body succeeds with an undefined result. -/
theorem flows_missing_output_behavior (now : Nat) (tIn : GenerateTestInput)
    (h1 : 0 < tIn.numObjective + tIn.numSubjective)
    (h2 : tIn.numObjective + tIn.numSubjective ≤ 20)
    (aIn : AnalyzeTestResultsInput) (rIn : ResolveQuestionInput)
    (sIn : SummarizeConversationInput) (fIn : GenerateFlashcardAnswerInput)
    (mIn : GenerateMultipleFlashcardsInput)
    (currentDate : String) (pIn : GenerateStudyPlanInput) :
    (generateTestInternalFlow now (fun _ => none) tIn).1 =
      Except.error "AI failed to generate questions or output was empty." ∧
    analyzeTestResultsInternalFlow (fun _ => none) aIn =
      Except.error "AI analysis failed to return an output." ∧
    resolveQuestionFlow (fun _ => none) rIn = Except.ok none ∧
    summarizeConversationFlow (fun _ => none) sIn = Except.ok none ∧
    generateStudyPlanFlow currentDate (fun _ _ _ => none) pIn = Except.ok none ∧
    generateFlashcardAnswerFlow (fun _ => none) fIn = Except.ok none ∧
    generateMultipleFlashcardsFlow (fun _ => none) mIn = Except.ok none := by
  refine ⟨?_, rfl, rfl, rfl, rfl, rfl, rfl⟩
  unfold generateTestInternalFlow
  have h0 : ¬ tIn.numObjective + tIn.numSubjective ≤ 0 := by omega
  have h3 : ¬ tIn.numObjective + tIn.numSubjective > 20 := by omega
  simp [h0, h3]

/-- Witness for the amended C2 at concrete inputs. -/
theorem flows_missing_output_behavior_witness :
    (generateTestInternalFlow 5 (fun _ => none) oneObjectiveInput).1 =
      Except.error "AI failed to generate questions or output was empty." ∧
    analyzeTestResultsInternalFlow (fun _ => none) noOptionsFixture =
      Except.error "AI analysis failed to return an output." ∧
    resolveQuestionFlow (fun _ => none) { question := "why", image := none } = Except.ok none ∧
    summarizeConversationFlow (fun _ => none) { conversationHistory := "hi" } = Except.ok none ∧
    generateStudyPlanFlow "2025-03-01" (fun _ _ _ => none)
      { exams := [{ id := "e1", subject := "Maths", date := "2025-04-01", type := none }],
        weakAreas := none, learningPace := LearningPace.moderate,
        studyHoursPerWeek := none, preferredStudyDays := none, notes := none } = Except.ok none ∧
    generateFlashcardAnswerFlow (fun _ => none) { questionText := "what" } = Except.ok none ∧
    generateMultipleFlashcardsFlow (fun _ => none)
      { topic := "plants", numberOfCards := none } = Except.ok none :=
  flows_missing_output_behavior 5 oneObjectiveInput (by decide) (by decide)
    noOptionsFixture { question := "why", image := none } { conversationHistory := "hi" }
    { questionText := "what" } { topic := "plants", numberOfCards := none } "2025-03-01"
    { exams := [{ id := "e1", subject := "Maths", date := "2025-04-01", type := none }],
      weakAreas := none, learningPace := LearningPace.moderate,
      studyHoursPerWeek := none, preferredStudyDays := none, notes := none }

/-! ### C3 -/

/-- Projection equation: post-processing keeps the question type. -/
theorem postProcessQuestion_type (now index : Nat) (q : TestQuestion) :
    (postProcessQuestion now index q).type = q.type := rfl

/-- Projection equation for the backfilled question id. -/
theorem postProcessQuestion_id (now index : Nat) (q : TestQuestion) :
    (postProcessQuestion now index q).id =
      if q.id = "" then "q_" ++ toString now ++ "_" ++ toString index else q.id := rfl

/-- Projection equation for the stripped-or-kept correct answer key. -/
theorem postProcessQuestion_key (now index : Nat) (q : TestQuestion) :
    (postProcessQuestion now index q).correctAnswerKey =
      if q.type = QuestionType.objective then q.correctAnswerKey else none := rfl

/-- Projection equation for the backfilled options. -/
theorem postProcessQuestion_options (now index : Nat) (q : TestQuestion) :
    (postProcessQuestion now index q).options =
      if q.type = QuestionType.objective then
        some ((q.options.map (fun opts => opts.mapIdx (fun optIndex opt =>
          { opt with id := if opt.id = "" then
              (postProcessQuestion now index q).id ++ "_opt" ++ toString optIndex
            else opt.id }))).getD [])
      else none := rfl

/-- The backfilled question id is never empty. -/
theorem postProcessQuestion_id_ne_empty (now index : Nat) (q : TestQuestion) :
    (postProcessQuestion now index q).id ≠ "" := by
  rw [postProcessQuestion_id]
  by_cases hq : q.id = ""
  · rw [if_pos hq]
    exact append_ne_empty_of_left _ _
      (append_ne_empty_of_left _ _ (append_ne_empty_of_left _ _ (by decide)))
  · rw [if_neg hq]
    exact hq

/-- The invariants post-processing establishes on one question. -/
theorem postProcessQuestion_invariants (now index : Nat) (q : TestQuestion) :
    (postProcessQuestion now index q).id ≠ "" ∧
    (∀ opt ∈ (postProcessQuestion now index q).options.getD [], opt.id ≠ "") ∧
    ((postProcessQuestion now index q).type = QuestionType.objective →
      (postProcessQuestion now index q).options.isSome) ∧
    ((postProcessQuestion now index q).type = QuestionType.subjective →
      (postProcessQuestion now index q).options = none ∧
      (postProcessQuestion now index q).correctAnswerKey = none) := by
  refine ⟨postProcessQuestion_id_ne_empty now index q, ?_, ?_, ?_⟩
  · intro opt hopt
    rw [postProcessQuestion_options] at hopt
    by_cases ht : q.type = QuestionType.objective
    · rw [if_pos ht] at hopt
      cases hopts : q.options with
      | none => rw [hopts] at hopt; simp at hopt
      | some opts =>
        rw [hopts] at hopt
        simp only [Option.map_some', Option.getD_some] at hopt
        rw [List.mem_mapIdx] at hopt
        obtain ⟨j, hj, hfeq⟩ := hopt
        rw [← hfeq]
        by_cases ho : (opts[j]).id = ""
        · simp only [ho, if_pos rfl]
          exact append_ne_empty_of_left _ _
            (append_ne_empty_of_left _ _ (postProcessQuestion_id_ne_empty now index q))
        · simp [ho]
    · rw [if_neg ht] at hopt
      simp at hopt
  · intro ht
    rw [postProcessQuestion_options, postProcessQuestion_type] at *
    rw [if_pos ht]
    rfl
  · intro ht
    rw [postProcessQuestion_type] at ht
    have hne : ¬ q.type = QuestionType.objective := by rw [ht]; intro hc; cases hc
    rw [postProcessQuestion_options, postProcessQuestion_key, if_neg hne, if_neg hne]
    exact ⟨rfl, rfl⟩

/-- Inversion of a successful `generateTestInternalFlow` run. -/
theorem generateTestInternalFlow_ok (now : Nat)
    (model : GenerateTestInput → Option GenerateTestOutput) (input : GenerateTestInput)
    (out : GenerateTestOutput)
    (h : (generateTestInternalFlow now model input).1 = Except.ok out) :
    ∃ o, model input = some o ∧
      out.questions = o.questions.mapIdx (postProcessQuestion now) := by
  unfold generateTestInternalFlow at h
  by_cases c1 : input.numObjective + input.numSubjective ≤ 0
  · rw [if_pos c1] at h; exact absurd h (by simp)
  · rw [if_neg c1] at h
    by_cases c2 : input.numObjective + input.numSubjective > 20
    · rw [if_pos c2] at h; exact absurd h (by simp)
    · rw [if_neg c2] at h
      cases hm : model input with
      | none => rw [hm] at h; exact absurd h (by simp)
      | some o =>
        rw [hm] at h
        simp only [Except.ok.injEq] at h
        exact ⟨o, rfl, by rw [← h]⟩

/-- **C3** fails as stated: the post-processing in `generateTestInternalFlow`
does not validate `correctAnswerKey` against the option ids. At this input
the key `"zzz"` survives post-processing although no option of the question
has id `"zzz"`. -/
theorem generateTest_keeps_dangling_correctAnswerKey :
    (generateTestInternalFlow 7 (fun _ => some danglingKeyOutput) oneObjectiveInput).1 =
      Except.ok danglingKeyOutput ∧
    (danglingKeyOutput.questions.all (fun q =>
      decide (q.correctAnswerKey = some "zzz") &&
      (q.options.getD []).all (fun opt => opt.id ≠ "zzz"))) = true :=
  ⟨rfl, by decide⟩

/-- **C3 (amended).** For every question in a successful `generateTest`
output: the question id and every option id are non-empty (synthesized when
the model omitted them); an objective question has a non-`undefined`
`options` array (empty if omitted); a subjective question carries neither
`options` nor `correctAnswerKey`. The claim's further assertion that a
present `correctAnswerKey` matches exactly one option id does not hold:
the key is passed through unvalidated. -/
theorem generateTest_output_invariants (now : Nat)
    (model : GenerateTestInput → Option GenerateTestOutput) (input : GenerateTestInput)
    (out : GenerateTestOutput)
    (h : (generateTestInternalFlow now model input).1 = Except.ok out) :
    ∀ q ∈ out.questions,
      q.id ≠ "" ∧
      (∀ opt ∈ q.options.getD [], opt.id ≠ "") ∧
      (q.type = QuestionType.objective → q.options.isSome) ∧
      (q.type = QuestionType.subjective → q.options = none ∧ q.correctAnswerKey = none) := by
  obtain ⟨o, hm, hq⟩ := generateTestInternalFlow_ok now model input out h
  intro q hqmem
  rw [hq, List.mem_mapIdx] at hqmem
  obtain ⟨i, hi, hfeq⟩ := hqmem
  rw [← hfeq]
  exact postProcessQuestion_invariants now i _

/-- Witness for the amended C3 on a subjective-question output. -/
theorem generateTest_output_invariants_witness :
    subjectiveQ.id ≠ "" ∧
    (∀ opt ∈ subjectiveQ.options.getD [], opt.id ≠ "") ∧
    (subjectiveQ.type = QuestionType.objective → subjectiveQ.options.isSome) ∧
    (subjectiveQ.type = QuestionType.subjective →
      subjectiveQ.options = none ∧ subjectiveQ.correctAnswerKey = none) :=
  generateTest_output_invariants 3 (fun _ => some subjectiveOutput)
    { title := "Physics", subject := none, description := none,
      numSubjective := 1, numObjective := 0 } subjectiveOutput rfl
    subjectiveQ (by decide)

/-! ### C4 -/

/-- Post-processing one question ignores the clock when the question
already has an id (option-id backfilling never reads the clock). -/
theorem postProcessQuestion_clock_independent (now₁ now₂ index : Nat) (q : TestQuestion)
    (h : q.id ≠ "") :
    postProcessQuestion now₁ index q = postProcessQuestion now₂ index q := by
  unfold postProcessQuestion
  simp [h]

/-- **C9** fails as stated: test-generation ID backfilling reads
`Date.now()`, so two runs at different timestamps on the same model output
(here: a question whose id is missing) produce different results. -/
theorem generateTest_backfill_timestamp_dependence :
    (generateTestInternalFlow 1 (fun _ => some missingIdOutput) oneObjectiveInput).1 ≠
    (generateTestInternalFlow 2 (fun _ => some missingIdOutput) oneObjectiveInput).1 := by
  intro h
  have h2 := congrArg Except.toOption h
  revert h2
  decide

/-- **C9 (amended).** The post-processing rules are deterministic in the
validated model output except for test-generation ID backfilling, which also
reads the clock: study-plan sorting (`sortStudyPlan`), answer-text
resolution (`processQuestions`) and flashcard clamping
(`effectiveNumCards`) take no run-varying input at all, and
`generateTestInternalFlow` is run-independent exactly when every question
of the model output already carries a non-empty id. -/
theorem generateTest_backfill_deterministic_with_ids (now₁ now₂ : Nat)
    (model : GenerateTestInput → Option GenerateTestOutput) (input : GenerateTestInput)
    (h : ∀ o ∈ model input, ∀ q ∈ o.questions, q.id ≠ "") :
    generateTestInternalFlow now₁ model input = generateTestInternalFlow now₂ model input := by
  unfold generateTestInternalFlow
  by_cases c1 : input.numObjective + input.numSubjective ≤ 0
  · rw [if_pos c1, if_pos c1]
  · rw [if_neg c1, if_neg c1]
    by_cases c2 : input.numObjective + input.numSubjective > 20
    · rw [if_pos c2, if_pos c2]
    · rw [if_neg c2, if_neg c2]
      cases hm : model input with
      | none => rfl
      | some o =>
        have ho : ∀ q ∈ o.questions, q.id ≠ "" := h o (by rw [hm]; rfl)
        simp only [Prod.mk.injEq, Except.ok.injEq, GenerateTestOutput.mk.injEq, and_true]
        rw [List.mapIdx_eq_mapIdx_iff]
        intro i hi
        exact postProcessQuestion_clock_independent now₁ now₂ i _
          (ho _ (List.getElem_mem hi))

/-- Witness for the amended C9: with all ids present, two timestamps give
the same run. -/
theorem generateTest_backfill_deterministic_with_ids_witness :
    generateTestInternalFlow 10 (fun _ => some danglingKeyOutput) oneObjectiveInput =
    generateTestInternalFlow 20 (fun _ => some danglingKeyOutput) oneObjectiveInput :=
  generateTest_backfill_deterministic_with_ids 10 20 _ _
    (by intro o ho; injection ho with h1; subst h1; decide)

/-! ### C5 -/

/-- The indexed shape of one pre-processed analysis question. -/
theorem processQuestions_getElem (input : AnalyzeTestResultsInput) (i : Nat)
    (hp : i < (processQuestions input).length) (hi : i < input.questions.length) :
    (processQuestions input)[i] =
      { toTestQuestion := input.questions[i]
        userAnswerTextForPrompt :=
          resolveUserAnswer input.userResponses (input.questions[i])
        questionDisplayNumber := i + 1 } := by
  simp [processQuestions]

/-- **C5** fails as stated: in `emptyResponseFixture` the objective
question has options `a`/`b` and the stored response is the recorded empty
string, which matches no option id — yet the code resolves it to
"No answer provided", not "Invalid option selected by user", because the
truthiness check `if (rawUserAnswer)` fires before the option lookup. -/
theorem analysis_empty_response_not_invalid :
    emptyResponseFixture.userResponses.lookup "q1" = some "" ∧
    (emptyResponseFixture.questions.all (fun q =>
      (q.options.getD []).all (fun opt => opt.id ≠ ""))) = true ∧
    ((processQuestions emptyResponseFixture)[0]?).map
      (fun p => p.userAnswerTextForPrompt) = some "No answer provided" ∧
    ((processQuestions emptyResponseFixture)[0]?).map
      (fun p => p.userAnswerTextForPrompt) ≠ some "Invalid option selected by user" := by
  refine ⟨rfl, by decide, by decide, ?_⟩
  intro h
  revert h
  decide

/-- **C5 (amended).** Analysis pre-processing resolves each stored raw
answer to display text: for an objective question with options, the text
of the option whose id equals the stored non-empty response; "Invalid
option selected by user" when the stored non-empty response matches no
option id; "No answer provided" when no response was recorded **or the
recorded response is the empty string** (falsy, checked before the option
lookup); the raw text itself for a subjective question; and each processed
question receives the 1-based display number of its position. -/
theorem analysis_answer_resolution (input : AnalyzeTestResultsInput)
    (i : Nat) (hi : i < input.questions.length) :
    ∃ hp : i < (processQuestions input).length,
      ((processQuestions input)[i]).questionDisplayNumber = i + 1 ∧
      ((processQuestions input)[i]).toTestQuestion = input.questions[i] ∧
      (input.userResponses.lookup (input.questions[i]).id = none →
        ((processQuestions input)[i]).userAnswerTextForPrompt = "No answer provided") ∧
      (input.userResponses.lookup (input.questions[i]).id = some "" →
        ((processQuestions input)[i]).userAnswerTextForPrompt = "No answer provided") ∧
      (∀ r, input.userResponses.lookup (input.questions[i]).id = some r → r ≠ "" →
        (input.questions[i]).type = QuestionType.objective →
        ∀ opts, (input.questions[i]).options = some opts →
          ((opts.filter (fun opt => opt.id = r) = [] →
            ((processQuestions input)[i]).userAnswerTextForPrompt =
              "Invalid option selected by user") ∧
          (∀ opt, opts.filter (fun o2 => o2.id = r) = [opt] →
            ((processQuestions input)[i]).userAnswerTextForPrompt = opt.text))) ∧
      (∀ r, input.userResponses.lookup (input.questions[i]).id = some r → r ≠ "" →
        (input.questions[i]).type = QuestionType.subjective →
        ((processQuestions input)[i]).userAnswerTextForPrompt = r) := by
  have hp : i < (processQuestions input).length := by
    simpa [processQuestions] using hi
  refine ⟨hp, ?_⟩
  rw [processQuestions_getElem input i hp hi]
  refine ⟨rfl, rfl, ?_, ?_, ?_, ?_⟩
  · intro hnone
    simp [resolveUserAnswer, hnone]
  · intro hr
    simp [resolveUserAnswer, hr]
  · intro r hr hne hobj opts hopts
    constructor
    · intro hfilter
      have hfind : opts.find? (fun opt => opt.id = r) = none := by
        rw [List.find?_eq_none]
        intro x hx
        simp only [decide_eq_true_eq]
        intro hid
        have hmem : x ∈ opts.filter (fun opt => opt.id = r) := by
          rw [List.mem_filter]
          exact ⟨hx, by simp [hid]⟩
        rw [hfilter] at hmem
        cases hmem
      simp [resolveUserAnswer, hr, hne, hobj, hopts, hfind]
    · intro opt hfilter
      have hfind := find?_eq_of_filter_eq_singleton hfilter
      simp [resolveUserAnswer, hr, hne, hobj, hopts, hfind]
  · intro r hr hne hsub
    rw [resolveUserAnswer, hr, hsub]
    simp [hne]

/-- Witness for C5 on `analysisFixture`: an invalid stored option id, a
valid one, a missing response, and a subjective raw answer. -/
theorem analysis_answer_resolution_witness :
    ((processQuestions analysisFixture)[0]?).map
      (fun p => p.userAnswerTextForPrompt) = some "Invalid option selected by user" ∧
    ((processQuestions analysisFixture)[1]?).map
      (fun p => p.userAnswerTextForPrompt) = some "Rome" ∧
    ((processQuestions analysisFixture)[2]?).map
      (fun p => p.userAnswerTextForPrompt) = some "No answer provided" ∧
    ((processQuestions analysisFixture)[3]?).map
      (fun p => p.userAnswerTextForPrompt) = some "A big city." ∧
    ((processQuestions analysisFixture)[0]?).map
      (fun p => p.questionDisplayNumber) = some 1 := by
  obtain ⟨hp0, hnum0, _, _, _, hobj0, _⟩ :=
    analysis_answer_resolution analysisFixture 0 (by decide)
  obtain ⟨hp1, _, _, _, _, hobj1, _⟩ :=
    analysis_answer_resolution analysisFixture 1 (by decide)
  obtain ⟨hp2, _, _, hnone2, _, _, _⟩ :=
    analysis_answer_resolution analysisFixture 2 (by decide)
  obtain ⟨hp3, _, _, _, _, _, hsub3⟩ :=
    analysis_answer_resolution analysisFixture 3 (by decide)
  have h0 := (hobj0 "c" rfl (by decide) rfl _ rfl).1 rfl
  have h1 := (hobj1 "b" rfl (by decide) rfl _ rfl).2 _ rfl
  have h2 := hnone2 rfl
  have h3 := hsub3 "A big city." rfl (by decide) rfl
  rw [List.getElem?_eq_getElem hp0, List.getElem?_eq_getElem hp1,
    List.getElem?_eq_getElem hp2, List.getElem?_eq_getElem hp3]
  simp only [Option.map_some']
  rw [h0, h1, h2, h3, hnum0]
  exact ⟨rfl, rfl, rfl, rfl, rfl⟩

/-! ### C10 -/

/-- **C10.** For an objective question whose `options` field is absent, a
recorded non-empty raw response is used verbatim as the resolved display
text; a recorded empty-string response and a missing response both resolve
to "No answer provided". -/
theorem analysis_objective_no_options_resolution (input : AnalyzeTestResultsInput)
    (i : Nat) (hi : i < input.questions.length)
    (hobj : (input.questions[i]).type = QuestionType.objective)
    (hopts : (input.questions[i]).options = none) :
    ∃ hp : i < (processQuestions input).length,
      (∀ r, input.userResponses.lookup (input.questions[i]).id = some r → r ≠ "" →
        ((processQuestions input)[i]).userAnswerTextForPrompt = r) ∧
      (input.userResponses.lookup (input.questions[i]).id = some "" →
        ((processQuestions input)[i]).userAnswerTextForPrompt = "No answer provided") ∧
      (input.userResponses.lookup (input.questions[i]).id = none →
        ((processQuestions input)[i]).userAnswerTextForPrompt = "No answer provided") := by
  have hp : i < (processQuestions input).length := by
    simpa [processQuestions] using hi
  refine ⟨hp, ?_, ?_, ?_⟩ <;> rw [processQuestions_getElem input i hp hi]
  · intro r hr hne
    rw [resolveUserAnswer, hr, hobj, hopts]
    simp [hne]
  · intro hr
    simp [resolveUserAnswer, hr]
  · intro hr
    simp [resolveUserAnswer, hr]

/-- Witness for C10 on `noOptionsFixture`: a raw response kept verbatim, an
empty-string response, and a missing response. -/
theorem analysis_objective_no_options_resolution_witness :
    ((processQuestions noOptionsFixture)[0]?).map
      (fun p => p.userAnswerTextForPrompt) = some "a" ∧
    ((processQuestions noOptionsFixture)[1]?).map
      (fun p => p.userAnswerTextForPrompt) = some "No answer provided" ∧
    ((processQuestions noOptionsFixture)[2]?).map
      (fun p => p.userAnswerTextForPrompt) = some "No answer provided" := by
  obtain ⟨hp0, hraw0, _, _⟩ :=
    analysis_objective_no_options_resolution noOptionsFixture 0 (by decide) rfl rfl
  obtain ⟨hp1, _, hempty1, _⟩ :=
    analysis_objective_no_options_resolution noOptionsFixture 1 (by decide) rfl rfl
  obtain ⟨hp2, _, _, hmiss2⟩ :=
    analysis_objective_no_options_resolution noOptionsFixture 2 (by decide) rfl rfl
  have h0 := hraw0 "a" rfl (by decide)
  have h1 := hempty1 rfl
  have h2 := hmiss2 rfl
  rw [List.getElem?_eq_getElem hp0, List.getElem?_eq_getElem hp1,
    List.getElem?_eq_getElem hp2]
  simp only [Option.map_some']
  rw [h0, h1, h2]
  exact ⟨rfl, rfl, rfl⟩

/-! ### C6 and C7: the basic-report fallback -/

/-- Projection equation for the fallback per-question verdict. -/
theorem basicQuestionAnalysis_isCorrect (v : Option String) (q : TestQuestion) :
    (basicQuestionAnalysis v q).isCorrect =
      (decide (q.type = QuestionType.objective) && basicIsCorrect v q) := rfl

/-- Projection equation for the fallback per-question feedback fields. -/
theorem basicQuestionAnalysis_feedback (v : Option String) (q : TestQuestion) :
    (basicQuestionAnalysis v q).feedback =
      "AI-powered feedback is temporarily unavailable for this question." ∧
    (basicQuestionAnalysis v q).suggestedScoreOutOfTen = none :=
  ⟨rfl, rfl⟩

/-- Projection equation for the fallback report's analyses. -/
theorem generateBasicReport_questionAnalyses (t : TestSet) :
    (generateBasicReport t).questionAnalyses =
      t.questions.map (fun q => basicQuestionAnalysis (testSetResponse t q.id) q) := rfl

/-- Projection equation for the fallback report's score. -/
theorem generateBasicReport_overallScore (t : TestSet) :
    (generateBasicReport t).overallScore =
      (if t.questions.countP (fun q => decide (q.type = QuestionType.objective)) > 0 then
        some ((t.questions.countP (fun q => decide (q.type = QuestionType.objective) &&
            basicIsCorrect (testSetResponse t q.id) q) : ℚ) /
          (t.questions.countP (fun q => decide (q.type = QuestionType.objective)) : ℚ) * 100)
      else none) := rfl

/-- The fallback verdict holds exactly for a recorded non-empty response
equal to the question's `correctAnswerKey`. -/
theorem basicIsCorrect_iff (v : Option String) (q : TestQuestion) :
    basicIsCorrect v q = true ↔
      ∃ r, v = some r ∧ r ≠ "" ∧ q.correctAnswerKey = some r := by
  unfold basicIsCorrect
  cases v with
  | none => simp
  | some r =>
    cases hk : q.correctAnswerKey with
    | none => simp
    | some k =>
      simp only [Bool.and_eq_true, decide_eq_true_eq, Option.some.injEq]
      constructor
      · rintro ⟨h1, h2⟩
        exact ⟨r, rfl, h1, h2.symm⟩
      · rintro ⟨r2, rfl, h1, h2⟩
        exact ⟨h1, h2.symm⟩

/-- **C6.** When the analysis outcome is a 503-equivalent error
(overloaded/unavailable), the caller receives — instead of an exception —
the non-null basic report: its feedback text states the limitation, every
per-question feedback is the unavailability placeholder with no suggested
score, an objective question is judged correct exactly when its stored
response is a recorded non-empty option id equal to `correctAnswerKey`,
and the overall score is a percentage within [0, 100] (or null). -/
theorem analysis_503_fallback_basic_report (submittedTest : TestSet) (msg : String)
    (h503 : errorIs503Equivalent msg = true) :
    handleAnalysisOutcome submittedTest (Except.error msg) =
      Except.ok (generateBasicReport submittedTest) ∧
    (generateBasicReport submittedTest).overallFeedback =
      "Basic report generated. AI analysis is temporarily unavailable. This report primarily reflects performance on objective questions." ∧
    (generateBasicReport submittedTest).questionAnalyses.length =
      submittedTest.questions.length ∧
    (∀ a ∈ (generateBasicReport submittedTest).questionAnalyses,
      a.feedback = "AI-powered feedback is temporarily unavailable for this question." ∧
      a.suggestedScoreOutOfTen = none) ∧
    (∀ i, ∀ hq : i < submittedTest.questions.length,
      ∀ ha : i < (generateBasicReport submittedTest).questionAnalyses.length,
      (((generateBasicReport submittedTest).questionAnalyses[i]).isCorrect = true ↔
        (submittedTest.questions[i]).type = QuestionType.objective ∧
        ∃ r, testSetResponse submittedTest (submittedTest.questions[i]).id = some r ∧
          r ≠ "" ∧ (submittedTest.questions[i]).correctAnswerKey = some r)) ∧
    (∀ s ∈ (generateBasicReport submittedTest).overallScore, 0 ≤ s ∧ s ≤ 100) := by
  refine ⟨?_, rfl, ?_, ?_, ?_, ?_⟩
  · simp [handleAnalysisOutcome, h503]
  · rw [generateBasicReport_questionAnalyses, List.length_map]
  · intro a ha
    rw [generateBasicReport_questionAnalyses, List.mem_map] at ha
    obtain ⟨q, hq, rfl⟩ := ha
    exact basicQuestionAnalysis_feedback _ q
  · intro i hq ha
    have he : ((generateBasicReport submittedTest).questionAnalyses[i]) =
        basicQuestionAnalysis
          (testSetResponse submittedTest (submittedTest.questions[i]).id)
          (submittedTest.questions[i]) := by
      simp [generateBasicReport_questionAnalyses]
    rw [he, basicQuestionAnalysis_isCorrect, Bool.and_eq_true, decide_eq_true_eq,
      basicIsCorrect_iff]
  · intro s hs
    rw [generateBasicReport_overallScore] at hs
    by_cases ht : submittedTest.questions.countP
        (fun q => decide (q.type = QuestionType.objective)) > 0
    · rw [if_pos ht, Option.mem_some_iff] at hs
      subst hs
      have hc : submittedTest.questions.countP
            (fun q => decide (q.type = QuestionType.objective) &&
              basicIsCorrect (testSetResponse submittedTest q.id) q) ≤
          submittedTest.questions.countP
            (fun q => decide (q.type = QuestionType.objective)) :=
        List.countP_mono_left (fun x _ hx => by
          rw [Bool.and_eq_true] at hx
          exact hx.1)
      have htq : (0 : ℚ) <
          (submittedTest.questions.countP (fun q => decide (q.type = QuestionType.objective)) : ℚ) := by
        exact_mod_cast ht
      constructor
      · positivity
      · have h1 : (submittedTest.questions.countP
              (fun q => decide (q.type = QuestionType.objective) &&
                basicIsCorrect (testSetResponse submittedTest q.id) q) : ℚ) /
            (submittedTest.questions.countP (fun q => decide (q.type = QuestionType.objective)) : ℚ) ≤ 1 :=
          (div_le_one htq).mpr (by exact_mod_cast hc)
        calc _ ≤ (1 : ℚ) * 100 := by
              exact mul_le_mul_of_nonneg_right h1 (by norm_num)
          _ = 100 := one_mul 100
    · rw [if_neg ht] at hs
      cases hs

/-- Witness for C6: a 503-equivalent message on `overloadedTest`. -/
theorem analysis_503_fallback_basic_report_witness :
    handleAnalysisOutcome overloadedTest
      (Except.error "503 Service Unavailable: model overloaded") =
      Except.ok (generateBasicReport overloadedTest) ∧
    ∀ s ∈ (generateBasicReport overloadedTest).overallScore, 0 ≤ s ∧ s ≤ 100 := by
  have h := analysis_503_fallback_basic_report overloadedTest
    "503 Service Unavailable: model overloaded" (by decide)
  exact ⟨h.1, h.2.2.2.2.2⟩

/-- **C7** fails as stated: in `unansweredTest` every question is objective
and every stored response (vacuously, as none is stored) equals
`correctAnswerKey`, yet the basic report scores 0 and marks the sole
question incorrect. -/
theorem basicReport_vacuous_match_not_perfect :
    (∀ q ∈ unansweredTest.questions, q.type = QuestionType.objective) ∧
    (∀ q ∈ unansweredTest.questions, ∀ r,
        testSetResponse unansweredTest q.id = some r → q.correctAnswerKey = some r) ∧
    (generateBasicReport unansweredTest).overallScore ≠ some 100 ∧
    ((generateBasicReport unansweredTest).questionAnalyses.all
      (fun a => a.isCorrect)) = false := by
  refine ⟨by decide, ?_, ?_, by decide⟩
  · intro q hq r hr
    simp only [unansweredTest, List.mem_singleton] at hq
    subst hq
    simp [testSetResponse, unansweredTest] at hr
  · have he : (generateBasicReport unansweredTest).overallScore =
        some (((0 : Nat) : ℚ) / ((1 : Nat) : ℚ) * 100) := rfl
    rw [he]
    intro hc
    rw [Option.some.injEq] at hc
    norm_num at hc

/-- **C7 (amended).** For every TestAnalysisRequest with at least one
question, in which every question is objective and carries a recorded
non-empty stored response equal to its `correctAnswerKey`, the basic-report
fallback yields `overallScore = 100` and marks every question correct. -/
theorem basicReport_perfect_objective_score (submittedTest : TestSet)
    (hne : submittedTest.questions ≠ [])
    (h : ∀ q ∈ submittedTest.questions,
      q.type = QuestionType.objective ∧
      ∃ r, testSetResponse submittedTest q.id = some r ∧ r ≠ "" ∧
        q.correctAnswerKey = some r) :
    (generateBasicReport submittedTest).overallScore = some 100 ∧
    ∀ a ∈ (generateBasicReport submittedTest).questionAnalyses, a.isCorrect = true := by
  have hall : ∀ q ∈ submittedTest.questions,
      (decide (q.type = QuestionType.objective) &&
        basicIsCorrect (testSetResponse submittedTest q.id) q) = true := by
    intro q hq
    obtain ⟨hobj, r, hr, hne2, hk⟩ := h q hq
    rw [Bool.and_eq_true, decide_eq_true_eq]
    exact ⟨hobj, (basicIsCorrect_iff _ q).mpr ⟨r, hr, hne2, hk⟩⟩
  have htot : submittedTest.questions.countP
        (fun q => decide (q.type = QuestionType.objective)) =
      submittedTest.questions.length := by
    rw [List.countP_eq_length]
    intro q hq
    exact decide_eq_true ((h q hq).1)
  have hcor : submittedTest.questions.countP
        (fun q => decide (q.type = QuestionType.objective) &&
          basicIsCorrect (testSetResponse submittedTest q.id) q) =
      submittedTest.questions.length := by
    rw [List.countP_eq_length]
    exact hall
  have hlen : 0 < submittedTest.questions.length := List.length_pos.mpr hne
  constructor
  · rw [generateBasicReport_overallScore, if_pos (by rw [htot]; exact hlen), htot, hcor,
      Option.some.injEq]
    have hq0 : (submittedTest.questions.length : ℚ) ≠ 0 := by
      exact_mod_cast Nat.pos_iff_ne_zero.mp hlen
    rw [div_self hq0]
    norm_num
  · intro a ha
    rw [generateBasicReport_questionAnalyses, List.mem_map] at ha
    obtain ⟨q, hq, rfl⟩ := ha
    rw [basicQuestionAnalysis_isCorrect]
    exact hall q hq

/-- Witness for the amended C7 on a fully correctly answered test. -/
theorem basicReport_perfect_objective_score_witness :
    (generateBasicReport perfectTest).overallScore = some 100 ∧
    ∀ a ∈ (generateBasicReport perfectTest).questionAnalyses, a.isCorrect = true :=
  basicReport_perfect_objective_score perfectTest (by decide) (by
    intro q hq
    simp only [perfectTest, List.mem_cons, List.not_mem_nil, or_false] at hq
    rcases hq with rfl | rfl
    · exact ⟨rfl, "a", rfl, by decide, rfl⟩
    · exact ⟨rfl, "b", rfl, by decide, rfl⟩)

/-! ### C8 -/

/-- **C8.** The number of cards requested from the model equals
`max(numberOfCards, 5)`: absent values become 5, values below 5 (including
0 and negatives) are raised to 5, values of 5 or more pass through. -/
theorem flashcards_min_five_clamp (topic : String) (numberOfCards : Option Int) :
    effectiveNumCards { topic := topic, numberOfCards := numberOfCards } =
      max (numberOfCards.getD 5) 5 ∧
    (flashcardsRequestInput { topic := topic, numberOfCards := numberOfCards }).numberOfCards =
      some (max (numberOfCards.getD 5) 5) ∧
    5 ≤ effectiveNumCards { topic := topic, numberOfCards := numberOfCards } := by
  have key : effectiveNumCards { topic := topic, numberOfCards := numberOfCards } =
      max (numberOfCards.getD 5) 5 := by
    cases numberOfCards with
    | none => rfl
    | some v =>
      by_cases hv : v = 0
      · subst hv
        simp [effectiveNumCards]
      · simp [effectiveNumCards, hv, Option.getD]
  refine ⟨key, ?_, ?_⟩
  · unfold flashcardsRequestInput
    rw [key]
  · rw [key]
    exact le_max_right _ _

end StudyBuddy
